import Mathlib

/-!
Shallow embedding of the Luma GPU execution engine (src/src/execution.rs,
with the array wrapper in src/src/lib.rs). Rust `String` values that are
manipulated character-wise (paths, map keys) are embedded as `List Char`;
error and panic messages are Lean `String` literals copied from the source.
A Rust computation that can return `Err` or panic is embedded as
`RustResult`.
-/

namespace Luma

/-- Rust strings used as map keys and paths. -/
abbrev RStr := List Char

/-- Outcome of a Rust computation: `Ok`, `Err(String)`, or a panic. -/
inductive RustResult (α : Type) where
  | ok : α → RustResult α
  | err : String → RustResult α
  | panicked : String → RustResult α
deriving Repr, DecidableEq

/-- True when the outcome is not `Ok` (an `Err` or a panic). -/
def RustResult.isFailure : RustResult α → Bool
  | .ok _ => false
  | .err _ => true
  | .panicked _ => true

/-- Association-list lookup, embedding `HashMap::get`. -/
def lookupAssoc {α : Type} : List (RStr × α) → RStr → Option α
  | [], _ => none
  | (k0, v0) :: rest, k => if k0 = k then some v0 else lookupAssoc rest k

/-- Association-list insert, embedding `HashMap::insert` (replaces an
existing key, otherwise appends). -/
def insertAssoc {α : Type} : List (RStr × α) → RStr → α → List (RStr × α)
  | [], k, v => [(k, v)]
  | (k0, v0) :: rest, k, v =>
      if k0 = k then (k, v) :: rest else (k0, v0) :: insertAssoc rest k v

/-- Association-list removal, embedding `HashMap::remove` (value dropped). -/
def removeAssoc {α : Type} : List (RStr × α) → RStr → List (RStr × α)
  | [], _ => []
  | (k0, v0) :: rest, k =>
      if k0 = k then rest else (k0, v0) :: removeAssoc rest k

/-- Embedding of Rust `str::strip_prefix`: `rustStripPre s p` removes `p`
from the front of `s`, or is `none`. -/
def rustStripPre : RStr → RStr → Option RStr
  | s, [] => some s
  | [], _ :: _ => none
  | c :: s, p :: ps => if c = p then rustStripPre s ps else none

/-- Embedding of Rust `str::strip_suffix`, via `rustStripPre` on the
reversed strings. -/
def rustStripSuf (s p : RStr) : Option RStr :=
  (rustStripPre s.reverse p.reverse).map fun r => r.reverse

/-- The operation enumeration of execution.rs. -/
inductive Operation where
  | DOUBLE
  | ADD
  | SUBTRACT
  | MULTIPLY
  | DIVIDE
deriving Repr, DecidableEq

/-- `decode_operation`: maps an `Operation` to its shader-registry key. -/
def decode_operation : Operation → RStr
  | .DOUBLE => "double".data
  | .ADD => "add".data
  | .SUBTRACT => "subtract".data
  | .MULTIPLY => "multiply".data
  | .DIVIDE => "divide".data

/-- A compiled shader module: its label and its WGSL source text. -/
structure ShaderModule where
  label : RStr
  source : RStr
deriving Repr, DecidableEq

/-- `ShaderResources = HashMap<String, ShaderModule>`. -/
abbrev ShaderResources := List (RStr × ShaderModule)

/-- The GPU platform visible to `get_adapter_info`: whether an adapter can
be found, whether the device request succeeds, and a counter giving each
newly created device/queue pair a fresh identity. -/
structure Platform where
  adapterAvailable : Bool
  deviceRequestOk : Bool
  nextDeviceId : Nat
deriving Repr, DecidableEq

/-- `GpuHandle`: the device and queue produced by one successful
`request_device` call; the identifiers record which allocation they came
from. -/
structure GpuHandle where
  device : Nat
  queue : Nat
deriving Repr, DecidableEq

/-- `Executor::get_adapter_info`: no adapter found gives
`Err("Found no adapters.")`; a rejected device request panics through
`.expect("Error requesting device.")`; success creates a fresh
device/queue pair. -/
def get_adapter_info (p : Platform) : RustResult GpuHandle × Platform :=
  if p.adapterAvailable then
    if p.deviceRequestOk then
      (.ok ⟨p.nextDeviceId, p.nextDeviceId⟩,
       { p with nextDeviceId := p.nextDeviceId + 1 })
    else
      (.panicked "Error requesting device.", p)
  else
    (.err "Found no adapters.", p)

/-- The filesystem visible to the shader loader: the result of
`read_dir` on the configured directory (`none` embeds a read failure) and
the readable files (path, contents). -/
structure Filesystem where
  dirEntries : Option (List RStr)
  files : List (RStr × RStr)

/-- Loading one directory entry, as the body of the loop in
`add_shader_modules_from_directory`: strip the directory, then a
backslash, then ".wgsl" (each `.unwrap()` panics on failure), read the
file (`.expect` panics on failure), and compile the module labelled with
the stripped file name. -/
def loadOne (fs : Filesystem) (dir path : RStr) :
    RustResult (RStr × ShaderModule) :=
  match rustStripPre path dir with
  | none => .panicked "called Option::unwrap on a None value"
  | some r1 =>
    match rustStripPre r1 "\\".data with
    | none => .panicked "called Option::unwrap on a None value"
    | some r2 =>
      match rustStripSuf r2 ".wgsl".data with
      | none => .panicked "called Option::unwrap on a None value"
      | some file_name =>
        match lookupAssoc fs.files path with
        | none => .panicked "Could not read file contents"
        | some shader => .ok (file_name, ⟨file_name, shader⟩)

/-- The loader's loop over the directory entries, accumulating the shader
map. -/
def loadLoop (fs : Filesystem) (dir : RStr) :
    List RStr → ShaderResources → RustResult ShaderResources
  | [], acc => .ok acc
  | p :: rest, acc =>
    match loadOne fs dir p with
    | .ok km => loadLoop fs dir rest (insertAssoc acc km.1 km.2)
    | .err e => .err e
    | .panicked m => .panicked m

/-- `Executor::add_shader_modules_from_directory`: a `read_dir` failure
returns `None`; otherwise every entry is loaded and the map returned as
`Some`. -/
def add_shader_modules_from_directory (fs : Filesystem)
    (shaders_directory : RStr) : RustResult (Option ShaderResources) :=
  match fs.dirEntries with
  | none => .ok none
  | some paths =>
    match loadLoop fs shaders_directory paths [] with
    | .ok hm => .ok (some hm)
    | .err e => .err e
    | .panicked m => .panicked m

/-- Byte size rounded up to `wgpu::COPY_BUFFER_ALIGNMENT` (4), as
`create_buffer_init` does. -/
def padTo4 (n : Nat) : Nat := (n + 3) / 4 * 4

/-- `create_buffer_init`: the buffer holds the given contents, zero-padded
up to the copy alignment. -/
def createBufferInit (contents : List Nat) : List Nat :=
  contents ++ List.replicate (padTo4 contents.length - contents.length) 0

/-- Little-endian byte representation of a machine integer of `w` bytes. -/
def leBytes (w n : Nat) : List Nat :=
  (List.range w).map fun i => n / 256 ^ i % 256

/-- The fixed `[usize; 4]` shape descriptor passed to `setup_buffers`. -/
structure Dims4 where
  d0 : Nat
  d1 : Nat
  d2 : Nat
  d3 : Nat
deriving Repr, DecidableEq

/-- `bytemuck::cast_slice::<usize, u8>` on the 4-element shape. -/
def dimsBytes (d : Dims4) : List Nat :=
  leBytes 8 d.d0 ++ leBytes 8 d.d1 ++ leBytes 8 d.d2 ++ leBytes 8 d.d3

/-- `bytemuck::cast_slice::<u8, u32>`: group the bytes four at a time,
little-endian. (`cast_slice` itself panics when the length is not a
multiple of four; `execute_op` checks that separately.) -/
def bytesToU32 : List Nat → List Nat
  | b0 :: b1 :: b2 :: b3 :: rest =>
      (b0 + 256 * b1 + 256 ^ 2 * b2 + 256 ^ 3 * b3) :: bytesToU32 rest
  | _ => []

/-- A `Buffers` entry of the Buffer Table: the storage buffer's creation
contents, the staging buffer's byte size, and the dimensions buffer's
creation contents. (The table maps identifiers to buffer handles; the
device-side contents evolve on the GPU and are not part of the map.) -/
structure Buffers where
  storage_buffer : List Nat
  staging_size : Nat
  dimensions_buffer : List Nat
deriving Repr, DecidableEq

/-- The `Executor`: optional adapter handle, optional shader registry,
and the Buffer Table. -/
structure Executor where
  adapter : Option GpuHandle
  shaders : Option ShaderResources
  buffers : List (RStr × Buffers)
deriving Repr, DecidableEq

/-- `Executor::default()`. -/
def Executor.default : Executor := ⟨none, none, []⟩

/-- `Executor::new`: acquire the adapter (propagating its failure via
`?`), load the shader directory, and populate the fields; a `None` shader
registry is not an error. -/
def Executor.new (shader_path_directory : RStr) (fs : Filesystem)
    (p : Platform) : RustResult Executor × Platform :=
  match get_adapter_info p with
  | (.err e, p2) => (.err e, p2)
  | (.panicked m, p2) => (.panicked m, p2)
  | (.ok adapter, p2) =>
    match add_shader_modules_from_directory fs shader_path_directory with
    | .err e => (.err e, p2)
    | .panicked m => (.panicked m, p2)
    | .ok shadersOpt =>
      (.ok { adapter := some adapter, shaders := shadersOpt, buffers := [] },
       p2)

/-- `Executor::drop`: remove the id from the Buffer Table. -/
def Executor.drop (ex : Executor) (id : RStr) : Executor :=
  { ex with buffers := removeAssoc ex.buffers id }

/-- `Executor::setup_buffers<T: Pod>`: `data` is the element sequence,
each element given by its byte representation (so a `u32` element is a
4-byte list); `cast_slice::<T, u8>` is the flattening. The storage buffer
is created from those bytes, the staging buffer with
`size: storage_buffer.size()`, and the dimensions buffer from the shape;
the triple is inserted under `id`. -/
def Executor.setup_buffers (ex : Executor) (dimensions : Dims4)
    (data : List (List Nat)) (id : RStr) : RustResult Unit × Executor :=
  match ex.adapter with
  | none => (.err "No operations loaded", ex)
  | some _ =>
    let storage_buffer := createBufferInit data.flatten
    let staging_size := storage_buffer.length
    let dimensions_buffer := createBufferInit (dimsBytes dimensions)
    (.ok (),
     { ex with
       buffers := insertAssoc ex.buffers id
         ⟨storage_buffer, staging_size, dimensions_buffer⟩ })

/-- The record of one dispatch: the `dispatch_workgroups` arguments and
the readback result. -/
structure ExecTrace where
  workgroups : Nat × Nat × Nat
  result : List Nat
deriving Repr, DecidableEq

/-- The bytes the staging buffer holds after the storage-to-staging copy:
`copy_buffer_to_buffer(storage, 0, staging, 0, staging.size())` reads
`staging_size` bytes of the (GPU-transformed) storage memory. -/
def stagedBytes (stagingSize : Nat) (computed : List Nat) : List Nat :=
  List.take stagingSize (computed ++ List.replicate stagingSize 0)

/-- `Executor::execute_op`. `gpu` is the opaque device computation the
submitted compute pass performs on the storage buffer's bytes (shader
semantics are outside the engine); `mapOk` is whether the asynchronous
map of the staging buffer succeeds. The code's checks in order: a missing
adapter or shader registry returns `Err("Not operations loaded")`; a
missing Buffer Table entry panics (`buffers.get(id).unwrap()`); a missing
registry key panics (`shaders.index(..)`, `HashMap`'s
`expect("no entry found for key")`). The compute pass dispatches
`(storage_buffer.size() as u32, 1, 1)` workgroups, the staging buffer is
filled by the copy, and a successful map casts its bytes to `u32`; a
failed map returns `Err("failed to run compute on gpu!")`. The executor
(its Buffer Table included) is returned as the call leaves it. -/
def Executor.execute_op (ex : Executor)
    (gpu : Operation → List Nat → List Nat) (mapOk : Bool) (id : RStr)
    (operation : Operation) : RustResult ExecTrace × Executor :=
  match ex.adapter with
  | none => (.err "Not operations loaded", ex)
  | some _ =>
    match ex.shaders with
    | none => (.err "Not operations loaded", ex)
    | some shaders =>
      match lookupAssoc ex.buffers id with
      | none => (.panicked "called Option::unwrap on a None value", ex)
      | some buffer =>
        match lookupAssoc shaders (decode_operation operation) with
        | none => (.panicked "no entry found for key", ex)
        | some _module =>
          let workgroups : Nat × Nat × Nat :=
            (buffer.storage_buffer.length % 2 ^ 32, 1, 1)
          let staged :=
            stagedBytes buffer.staging_size
              (gpu operation buffer.storage_buffer)
          if mapOk then
            if staged.length % 4 = 0 then
              (.ok ⟨workgroups, bytesToU32 staged⟩, ex)
            else
              (.panicked "cast_slice with incompatible length", ex)
          else
            (.err "failed to run compute on gpu!", ex)

/-- The full path `read_dir` reports for a `.wgsl` file of the given name
directly inside `dir`, with the platform's backslash separator. -/
def mkWgslPath (dir name : RStr) : RStr :=
  dir ++ "\\".data ++ name ++ ".wgsl".data

/-- `shadersOfItems items` is the registry the loader builds from the
(name, contents) pairs, in order. -/
def shadersOfItems (items : List (RStr × RStr)) : ShaderResources :=
  items.foldl (fun acc it => insertAssoc acc it.1 ⟨it.1, it.2⟩) []

/-- A buffer set's defining invariant: the staging buffer's byte size
equals the storage buffer's. -/
def Buffers.sizesMatch (b : Buffers) : Bool :=
  b.staging_size == b.storage_buffer.length

/-- The Buffer Table invariant: every held `Buffers` has matching
storage/staging sizes. -/
def tableSizesOk (t : List (RStr × Buffers)) : Bool :=
  t.all fun pr => pr.2.sizesMatch

/-- A concrete executor: adapter present, shader registry holding only
the `double` shader. -/
def exBase : Executor :=
  { adapter := some ⟨0, 0⟩,
    shaders := some [("double".data, ⟨"double".data, "code".data⟩)],
    buffers := [] }

/-- The byte representation of the four `u32` elements `[1, 2, 3, 4]`
(element stride 4, 16 bytes), the data of the array wrapper's example. -/
def data4 : List (List Nat) :=
  [[1, 0, 0, 0], [2, 0, 0, 0], [3, 0, 0, 0], [4, 0, 0, 0]]

/-- The same 16 bytes seen as sixteen one-byte elements (a `u8` array):
same raw contents, different element type. -/
def data16 : List (List Nat) :=
  [[1], [0], [0], [0], [2], [0], [0], [0],
   [3], [0], [0], [0], [4], [0], [0], [0]]

/-- `exBase` after allocating `data4` under id `"a"`. -/
def ex1 : Executor :=
  (exBase.setup_buffers ⟨4, 1, 1, 1⟩ data4 "a".data).2

/-- The `Buffers` entry `ex1` holds under `"a"`. -/
def buf1 : Buffers :=
  ⟨[1, 0, 0, 0, 2, 0, 0, 0, 3, 0, 0, 0, 4, 0, 0, 0], 16,
   createBufferInit (dimsBytes ⟨4, 1, 1, 1⟩)⟩

/-- An identity device computation, standing for a compute pass that
leaves the storage bytes unchanged. -/
def gpuId : Operation → List Nat → List Nat := fun _ b => b

/-- The shader directory as `read_dir` reports it on a platform with
forward-slash path separators. -/
def fsUnix : Filesystem :=
  { dirEntries := some ["ops/double.wgsl".data],
    files := [("ops/double.wgsl".data, "code".data)] }

/-- The shader directory with a backslash-separated `.wgsl` entry. -/
def fsWin : Filesystem :=
  { dirEntries := some [mkWgslPath "ops".data "double".data],
    files := [(mkWgslPath "ops".data "double".data, "code".data)] }

/-- A filesystem on which `read_dir` of the shader directory fails. -/
def fsNoDir : Filesystem := { dirEntries := none, files := [] }

theorem rustStripPre_append (p s : RStr) :
    rustStripPre (p ++ s) p = some s := by
  induction p with
  | nil => cases s <;> simp [rustStripPre]
  | cons c ps ih => simp [rustStripPre, ih]

theorem rustStripSuf_append (s p : RStr) :
    rustStripSuf (s ++ p) p = some s := by
  simp [rustStripSuf, List.reverse_append, rustStripPre_append]

theorem lookupAssoc_insertAssoc_self {α : Type} (t : List (RStr × α))
    (k : RStr) (v : α) : lookupAssoc (insertAssoc t k v) k = some v := by
  induction t with
  | nil => simp [insertAssoc, lookupAssoc]
  | cons hd tl ih =>
    obtain ⟨k0, v0⟩ := hd
    by_cases hk : k0 = k
    · simp [insertAssoc, hk, lookupAssoc]
    · simp [insertAssoc, hk, lookupAssoc, ih]

theorem all_insertAssoc {α : Type} (p : RStr × α → Bool)
    (t : List (RStr × α)) (k : RStr) (v : α) (ht : t.all p = true)
    (hv : p (k, v) = true) : (insertAssoc t k v).all p = true := by
  induction t with
  | nil => simp [insertAssoc, hv]
  | cons hd tl ih =>
    obtain ⟨k0, v0⟩ := hd
    rw [List.all_cons, Bool.and_eq_true] at ht
    by_cases hk : k0 = k
    · simp [insertAssoc, hk, hv, ht.2]
    · simp only [insertAssoc, if_neg hk, List.all_cons, Bool.and_eq_true]
      exact ⟨ht.1, ih ht.2⟩

theorem all_removeAssoc {α : Type} (p : RStr × α → Bool)
    (t : List (RStr × α)) (k : RStr) (ht : t.all p = true) :
    (removeAssoc t k).all p = true := by
  induction t with
  | nil => simp [removeAssoc]
  | cons hd tl ih =>
    obtain ⟨k0, v0⟩ := hd
    rw [List.all_cons, Bool.and_eq_true] at ht
    by_cases hk : k0 = k
    · simp [removeAssoc, hk, ht.2]
    · simp only [removeAssoc, if_neg hk, List.all_cons, Bool.and_eq_true]
      exact ⟨ht.1, ih ht.2⟩

/-- `execute_op` never writes the executor: every path hands `self` back
as it was (the body takes only a read lock on the Buffer Table). -/
theorem execute_op_snd (ex : Executor) (gpu : Operation → List Nat → List Nat)
    (mapOk : Bool) (id : RStr) (operation : Operation) :
    (ex.execute_op gpu mapOk id operation).2 = ex := by
  unfold Executor.execute_op
  dsimp only
  repeat' split
  all_goals rfl

theorem padTo4_mod (n : Nat) : padTo4 n % 4 = 0 := by
  simp [padTo4, Nat.mul_mod_left]

theorem padTo4_ge (n : Nat) : n ≤ padTo4 n := by
  unfold padTo4
  omega

theorem createBufferInit_length (contents : List Nat) :
    (createBufferInit contents).length = padTo4 contents.length := by
  have h := padTo4_ge contents.length
  unfold createBufferInit
  rw [List.length_append, List.length_replicate]
  omega

theorem stagedBytes_length (n : Nat) (c : List Nat) :
    (stagedBytes n c).length = n := by
  unfold stagedBytes
  rw [List.length_take, List.length_append, List.length_replicate]
  omega

theorem bytesToU32_length (l : List Nat) (h : l.length % 4 = 0) :
    4 * (bytesToU32 l).length = l.length := by
  match l with
  | [] => simp [bytesToU32]
  | [a] => simp at h
  | [a, b] => simp at h
  | [a, b, c] => simp at h
  | a :: b :: c :: d :: rest =>
    have hr : rest.length % 4 = 0 := by
      simp only [List.length_cons] at h
      omega
    have hrec := bytesToU32_length rest hr
    simp only [bytesToU32, List.length_cons]
    omega

theorem loadOne_wgsl (fs : Filesystem) (dir name c : RStr)
    (h : lookupAssoc fs.files (mkWgslPath dir name) = some c) :
    loadOne fs dir (mkWgslPath dir name) = .ok (name, ⟨name, c⟩) := by
  have e1 : mkWgslPath dir name =
      dir ++ ("\\".data ++ (name ++ ".wgsl".data)) := by
    simp [mkWgslPath]
  rw [e1] at h
  rw [loadOne, e1]
  simp only [rustStripPre_append, rustStripSuf_append, h]

theorem loadLoop_wgsl (fs : Filesystem) (dir : RStr)
    (items : List (RStr × RStr)) : ∀ acc : ShaderResources,
    (∀ it ∈ items, lookupAssoc fs.files (mkWgslPath dir it.1) = some it.2) →
    loadLoop fs dir (items.map fun it => mkWgslPath dir it.1) acc =
      .ok (items.foldl (fun acc2 it => insertAssoc acc2 it.1 ⟨it.1, it.2⟩)
        acc) := by
  induction items with
  | nil =>
    intro acc _
    simp [loadLoop]
  | cons it rest ih =>
    intro acc h
    have h1 := h it (by simp)
    rw [List.map_cons, loadLoop, loadOne_wgsl fs dir it.1 it.2 h1,
      List.foldl_cons]
    exact ih _ fun x hx => h x (by simp [hx])

/-- Whenever `execute_op` returns `Ok`, the trace is determined by the
Buffer Table entry of the id: the dispatch is
`(storage byte size mod 2^32, 1, 1)` and the result is the `u32` cast of
the staging buffer's bytes. -/
theorem execute_op_ok_result (ex : Executor)
    (gpu : Operation → List Nat → List Nat) (mapOk : Bool) (id : RStr)
    (op : Operation) (t : ExecTrace)
    (hok : (ex.execute_op gpu mapOk id op).1 = .ok t) :
    ∃ b : Buffers, lookupAssoc ex.buffers id = some b ∧
      t = ⟨(b.storage_buffer.length % 2 ^ 32, 1, 1),
           bytesToU32 (stagedBytes b.staging_size
             (gpu op b.storage_buffer))⟩ := by
  unfold Executor.execute_op at hok
  dsimp only at hok
  repeat' split at hok
  all_goals simp_all

/-- C1: the code dispatches the storage buffer's raw byte size, not its
element count, as the first workgroup dimension. For the 4-element `u32`
array `data4` (16 bytes, stride 4), `execute_op` dispatches `(16, 1, 1)`
workgroups, while the claim's element count (byte size divided by the
element stride) is `data4.length = 4`. -/
theorem c1_dispatch_counts_byte_size :
    (ex1.execute_op gpuId true "a".data .DOUBLE).1 =
      .ok ⟨(16, 1, 1), [1, 2, 3, 4]⟩ ∧
    data4.length = 4 ∧ (16 : Nat) ≠ data4.length := by decide

/-- C2 counterexample: dispatching against the id `"missing"`, absent
from `ex1`'s Buffer Table, makes `execute_op` panic at
`buffers.get(id).unwrap()` instead of returning a `BufferNotFound`
error. -/
theorem c2_unknown_id_panics :
    (ex1.execute_op gpuId true "missing".data .ADD).1 =
      .panicked "called Option::unwrap on a None value" := by decide

/-- C2 amended: with an adapter and a shader registry present,
dispatching against any identifier absent from the Buffer Table panics
(the unwrap of the failed lookup) rather than returning an error. -/
theorem c2_amended_unknown_id_panics (ex : Executor)
    (gpu : Operation → List Nat → List Nat) (mapOk : Bool) (id : RStr)
    (op : Operation) (ha : ex.adapter.isSome = true)
    (hs : ex.shaders.isSome = true)
    (hid : lookupAssoc ex.buffers id = none) :
    (ex.execute_op gpu mapOk id op).1 =
      .panicked "called Option::unwrap on a None value" := by
  obtain ⟨a, s, b⟩ := ex
  simp only at ha hs hid
  cases a with
  | none => simp at ha
  | some av =>
    cases s with
    | none => simp at hs
    | some sv => simp [Executor.execute_op, hid]

/-- C2 amended witness at the concrete executor `exBase` and id `"a"`. -/
theorem c2_amended_witness :
    (exBase.adapter.isSome = true ∧ exBase.shaders.isSome = true ∧
      lookupAssoc exBase.buffers "a".data = none) ∧
    (exBase.execute_op gpuId true "a".data .ADD).1 =
      .panicked "called Option::unwrap on a None value" :=
  ⟨by decide, c2_amended_unknown_id_panics exBase gpuId true "a".data .ADD
    (by decide) (by decide) (by decide)⟩

/-- C3 counterexample: `ex1` holds the id `"a"` but its registry has no
`add` shader; dispatching `ADD` panics at `shaders.index(..)` (the
`HashMap` indexing panic) instead of returning `OperationNotSupported`. -/
theorem c3_missing_shader_panics :
    (ex1.execute_op gpuId true "a".data .ADD).1 =
      .panicked "no entry found for key" := by decide

/-- C3 amended: dispatching an operation whose shader is absent from the
(present) registry panics at the registry indexing rather than returning
an error; the Buffer Table is left unchanged. -/
theorem c3_amended_missing_shader_panics (ex : Executor)
    (gpu : Operation → List Nat → List Nat) (mapOk : Bool) (id : RStr)
    (op : Operation) (shaders : ShaderResources) (b : Buffers)
    (ha : ex.adapter.isSome = true) (hs : ex.shaders = some shaders)
    (hb : lookupAssoc ex.buffers id = some b)
    (hop : lookupAssoc shaders (decode_operation op) = none) :
    (ex.execute_op gpu mapOk id op).1 =
      .panicked "no entry found for key" ∧
    (ex.execute_op gpu mapOk id op).2 = ex := by
  refine ⟨?_, execute_op_snd ex gpu mapOk id op⟩
  obtain ⟨a, s, bufs⟩ := ex
  simp only at ha hs hb
  cases a with
  | none => simp at ha
  | some av =>
    subst hs
    simp [Executor.execute_op, hb, hop]

/-- C3 amended witness at `ex1`, id `"a"`, operation `ADD`. -/
theorem c3_amended_witness :
    (ex1.adapter.isSome = true ∧
      ex1.shaders = some [("double".data, ⟨"double".data, "code".data⟩)] ∧
      lookupAssoc ex1.buffers "a".data = some buf1 ∧
      lookupAssoc ([("double".data, ⟨"double".data, "code".data⟩)] :
          ShaderResources) (decode_operation .ADD) = none) ∧
    (ex1.execute_op gpuId true "a".data .ADD).1 =
      .panicked "no entry found for key" ∧
    (ex1.execute_op gpuId true "a".data .ADD).2 = ex1 :=
  ⟨by decide, c3_amended_missing_shader_panics ex1 gpuId true "a".data .ADD
    [("double".data, ⟨"double".data, "code".data⟩)] buf1 (by decide)
    (by decide) (by decide) (by decide)⟩

/-- C4 counterexample: two successive initializations each acquire a
device/queue pair, and the two contexts are distinct — nothing in the
code makes the Device Context a process-wide singleton. -/
theorem c4_repeated_init_two_contexts :
    get_adapter_info ⟨true, true, 0⟩ = (.ok ⟨0, 0⟩, ⟨true, true, 1⟩) ∧
    get_adapter_info ⟨true, true, 1⟩ = (.ok ⟨1, 1⟩, ⟨true, true, 2⟩) ∧
    (⟨0, 0⟩ : GpuHandle) ≠ ⟨1, 1⟩ := by decide

/-- C4 amended: every successful call to device acquisition creates a
fresh device/queue pair; repeated initialization therefore yields
distinct contexts rather than one shared singleton. -/
theorem c4_amended_fresh_context_per_init (p : Platform)
    (ha : p.adapterAvailable = true) (hd : p.deviceRequestOk = true) :
    (get_adapter_info p).1 = .ok ⟨p.nextDeviceId, p.nextDeviceId⟩ ∧
    (get_adapter_info (get_adapter_info p).2).1 =
      .ok ⟨p.nextDeviceId + 1, p.nextDeviceId + 1⟩ ∧
    (⟨p.nextDeviceId, p.nextDeviceId⟩ : GpuHandle) ≠
      ⟨p.nextDeviceId + 1, p.nextDeviceId + 1⟩ := by
  obtain ⟨pa, pd, pn⟩ := p
  simp only at ha hd
  subst ha hd
  refine ⟨by simp [get_adapter_info], by simp [get_adapter_info], ?_⟩
  simp [GpuHandle.mk.injEq]

/-- C4 amended witness at the concrete platform (adapter and device
available, next device identity 5). -/
theorem c4_amended_witness :
    ((⟨true, true, 5⟩ : Platform).adapterAvailable = true ∧
      (⟨true, true, 5⟩ : Platform).deviceRequestOk = true) ∧
    (get_adapter_info ⟨true, true, 5⟩).1 = .ok ⟨5, 5⟩ ∧
    (get_adapter_info (get_adapter_info ⟨true, true, 5⟩).2).1 =
      .ok ⟨6, 6⟩ ∧
    (⟨5, 5⟩ : GpuHandle) ≠ ⟨6, 6⟩ :=
  ⟨⟨rfl, rfl⟩, c4_amended_fresh_context_per_init ⟨true, true, 5⟩ rfl rfl⟩

/-- C5 counterexample: when the platform rejects the device request,
`get_adapter_info` panics (`.expect("Error requesting device.")`) instead
of returning a `DeviceCreationFailed` error. -/
theorem c5_device_rejection_panics :
    get_adapter_info ⟨true, false, 0⟩ =
      (.panicked "Error requesting device.", ⟨true, false, 0⟩) := by decide

/-- C5 amended: device acquisition returns the error
`"Found no adapters."` (the spec's `AdapterUnavailable`) when no adapter
is found, but panics when the platform rejects the device request. -/
theorem c5_amended_adapter_err_device_panic (p : Platform) :
    (p.adapterAvailable = false →
      (get_adapter_info p).1 = .err "Found no adapters.") ∧
    (p.adapterAvailable = true → p.deviceRequestOk = false →
      (get_adapter_info p).1 = .panicked "Error requesting device.") := by
  constructor
  · intro h
    simp [get_adapter_info, h]
  · intro h1 h2
    simp [get_adapter_info, h1, h2]

/-- C5 amended witness: both branches at concrete platforms. -/
theorem c5_amended_witness :
    ((⟨false, true, 0⟩ : Platform).adapterAvailable = false ∧
      (get_adapter_info ⟨false, true, 0⟩).1 = .err "Found no adapters.") ∧
    ((⟨true, false, 0⟩ : Platform).adapterAvailable = true ∧
      (⟨true, false, 0⟩ : Platform).deviceRequestOk = false ∧
      (get_adapter_info ⟨true, false, 0⟩).1 =
        .panicked "Error requesting device.") :=
  ⟨⟨rfl, (c5_amended_adapter_err_device_panic ⟨false, true, 0⟩).1 rfl⟩,
   ⟨rfl, rfl,
    (c5_amended_adapter_err_device_panic ⟨true, false, 0⟩).2 rfl rfl⟩⟩

/-- C6 counterexample: a directory entry with a forward-slash separator
(`"ops/double.wgsl"` inside directory `"ops"`) makes the loader panic at
`strip_prefix("\\").unwrap()` — it does not insert the file under any
key, so the loading behaviour does not hold for any directory path and
file name. -/
theorem c6_unix_path_panics :
    add_shader_modules_from_directory fsUnix "ops".data =
      .panicked "called Option::unwrap on a None value" := by decide

/-- C6 amended: the registry is keyed by file name with the `.wgsl`
suffix stripped exactly when every directory entry has the shape
`directory ++ "\\" ++ name ++ ".wgsl"` and is readable; entries of any
other shape (other separators or extensions) panic the loader instead. -/
theorem c6_amended_backslash_wgsl_keys (fs : Filesystem) (dir : RStr)
    (items : List (RStr × RStr))
    (hdir : fs.dirEntries = some (items.map fun it => mkWgslPath dir it.1))
    (hfiles : ∀ it ∈ items,
      lookupAssoc fs.files (mkWgslPath dir it.1) = some it.2) :
    add_shader_modules_from_directory fs dir =
      .ok (some (shadersOfItems items)) := by
  unfold add_shader_modules_from_directory
  rw [hdir]
  simp only [loadLoop_wgsl fs dir items [] hfiles, shadersOfItems]

/-- C6 amended witness: one well-formed entry
`"ops" ++ "\\" ++ "double.wgsl"` loads under the key `"double"`. -/
theorem c6_amended_witness :
    add_shader_modules_from_directory fsWin "ops".data =
      .ok (some [("double".data, ⟨"double".data, "code".data⟩)]) := by
  have h := c6_amended_backslash_wgsl_keys fsWin "ops".data
    [("double".data, "code".data)] (by rfl)
    (by
      intro it hit
      rw [List.mem_singleton] at hit
      subst hit
      decide)
  simpa [shadersOfItems, insertAssoc] using h

/-- C7: when reading the shader directory fails, `Executor::new` still
succeeds with an absent shader registry, and every later dispatch on an
executor with an absent registry returns
`Err("Not operations loaded")` — the code's dispatch-time error the spec
names `OperationNotSupported`. -/
theorem c7_dir_failure_starts_and_dispatch_errs (dir : RStr)
    (fs : Filesystem) (p : Platform) (hfs : fs.dirEntries = none)
    (ha : p.adapterAvailable = true) (hd : p.deviceRequestOk = true) :
    (Executor.new dir fs p).1 =
      .ok { adapter := some ⟨p.nextDeviceId, p.nextDeviceId⟩,
            shaders := none, buffers := [] } ∧
    ∀ (ex2 : Executor), ex2.shaders = none →
      ∀ (gpu : Operation → List Nat → List Nat) (mapOk : Bool)
        (id : RStr) (op : Operation),
        (ex2.execute_op gpu mapOk id op).1 =
          .err "Not operations loaded" := by
  constructor
  · simp [Executor.new, get_adapter_info, ha, hd,
      add_shader_modules_from_directory, hfs]
  · intro ex2 hs gpu mapOk id op
    obtain ⟨a, s, b⟩ := ex2
    simp only at hs
    subst hs
    cases a <;> simp [Executor.execute_op]

/-- C7 witness: concrete failing filesystem and healthy platform. -/
theorem c7_witness :
    (fsNoDir.dirEntries = none ∧
      (⟨true, true, 0⟩ : Platform).adapterAvailable = true ∧
      (⟨true, true, 0⟩ : Platform).deviceRequestOk = true) ∧
    (Executor.new "shaders".data fsNoDir ⟨true, true, 0⟩).1 =
      .ok { adapter := some ⟨0, 0⟩, shaders := none, buffers := [] } ∧
    ((⟨some ⟨0, 0⟩, none, []⟩ : Executor).execute_op gpuId true "a".data
        .ADD).1 = .err "Not operations loaded" :=
  ⟨⟨rfl, rfl, rfl⟩,
   (c7_dir_failure_starts_and_dispatch_errs "shaders".data fsNoDir
     ⟨true, true, 0⟩ rfl rfl rfl).1,
   (c7_dir_failure_starts_and_dispatch_errs "shaders".data fsNoDir
     ⟨true, true, 0⟩ rfl rfl rfl).2 ⟨some ⟨0, 0⟩, none, []⟩ rfl gpuId true
     "a".data .ADD⟩

/-- C8: every Buffer Table whose entries have matching storage/staging
sizes keeps that property across `setup_buffers` (which creates the
staging buffer with `size: storage_buffer.size()`), across `execute_op`,
and across `drop`. -/
theorem c8_sizes_match_invariant :
    (∀ (ex : Executor) (dims : Dims4) (data : List (List Nat))
      (id : RStr), tableSizesOk ex.buffers = true →
      tableSizesOk ((ex.setup_buffers dims data id).2).buffers = true) ∧
    (∀ (ex : Executor) (gpu : Operation → List Nat → List Nat)
      (mapOk : Bool) (id : RStr) (op : Operation),
      tableSizesOk ex.buffers = true →
      tableSizesOk ((ex.execute_op gpu mapOk id op).2).buffers = true) ∧
    (∀ (ex : Executor) (id : RStr), tableSizesOk ex.buffers = true →
      tableSizesOk (ex.drop id).buffers = true) := by
  refine ⟨?_, ?_, ?_⟩
  · intro ex dims data id h
    unfold Executor.setup_buffers
    cases ha : ex.adapter with
    | none => simpa using h
    | some av =>
      dsimp only
      exact all_insertAssoc _ ex.buffers id _ h
        (by simp [Buffers.sizesMatch])
  · intro ex gpu mapOk id op h
    rw [execute_op_snd]
    exact h
  · intro ex id h
    exact all_removeAssoc _ ex.buffers id h

/-- C8 witness: the invariant at the concrete executors. -/
theorem c8_witness :
    (tableSizesOk exBase.buffers = true ∧
      tableSizesOk
        ((exBase.setup_buffers ⟨4, 1, 1, 1⟩ data4 "a".data).2).buffers =
        true) ∧
    (tableSizesOk ex1.buffers = true ∧
      tableSizesOk
        ((ex1.execute_op gpuId true "a".data .DOUBLE).2).buffers =
        true) ∧
    (tableSizesOk ex1.buffers = true ∧
      tableSizesOk (ex1.drop "a".data).buffers = true) :=
  ⟨⟨by decide, c8_sizes_match_invariant.1 exBase ⟨4, 1, 1, 1⟩ data4
      "a".data (by decide)⟩,
   ⟨by decide, c8_sizes_match_invariant.2.1 ex1 gpuId true "a".data
      .DOUBLE (by decide)⟩,
   ⟨by decide, c8_sizes_match_invariant.2.2 ex1 "a".data (by decide)⟩⟩

/-- C9: whenever `execute_op` fails (an `Err` or a panic), the Buffer
Table's mapping is exactly what it was before the call: the body only
ever takes a read lock and never writes the map. -/
theorem c9_failed_call_leaves_table (ex : Executor)
    (gpu : Operation → List Nat → List Nat) (mapOk : Bool) (id : RStr)
    (op : Operation)
    (_h : ((ex.execute_op gpu mapOk id op).1).isFailure = true) :
    ((ex.execute_op gpu mapOk id op).2).buffers = ex.buffers := by
  rw [execute_op_snd]

/-- C9 witness: a concrete failing call (unknown id) leaves `ex1`'s
table intact. -/
theorem c9_witness :
    ((ex1.execute_op gpuId true "missing".data .ADD).1).isFailure =
      true ∧
    ((ex1.execute_op gpuId true "missing".data .ADD).2).buffers =
      ex1.buffers :=
  ⟨by decide,
   c9_failed_call_leaves_table ex1 gpuId true "missing".data .ADD
     (by decide)⟩

/-- C10: the readback is `u32`-typed for every element type the array
was allocated with: a successful dispatch after `setup_buffers` returns
the 4-byte little-endian groups of the staging bytes (so four times the
result length is the padded byte size, regardless of the element
stride), and the whole dispatch depends only on the flattened bytes of
the data, not on its element grouping. -/
theorem c10_readback_u32_any_element_type :
    (∀ (ex : Executor) (gpu : Operation → List Nat → List Nat)
      (mapOk : Bool) (dims : Dims4) (data : List (List Nat)) (id : RStr)
      (op : Operation) (t : ExecTrace),
      (((ex.setup_buffers dims data id).2).execute_op gpu mapOk id
          op).1 = .ok t →
      t.result = bytesToU32 (stagedBytes (padTo4 data.flatten.length)
        (gpu op (createBufferInit data.flatten))) ∧
      4 * t.result.length = padTo4 data.flatten.length) ∧
    (∀ (ex : Executor) (gpu : Operation → List Nat → List Nat)
      (mapOk : Bool) (dims : Dims4) (data1 data2 : List (List Nat))
      (id : RStr) (op : Operation), data1.flatten = data2.flatten →
      ((ex.setup_buffers dims data1 id).2).execute_op gpu mapOk id op =
      ((ex.setup_buffers dims data2 id).2).execute_op gpu mapOk id
        op) := by
  constructor
  · intro ex gpu mapOk dims data id op t hok
    obtain ⟨b, hb, ht⟩ := execute_op_ok_result _ gpu mapOk id op t hok
    unfold Executor.setup_buffers at hb
    cases ha : ex.adapter with
    | none =>
      refine absurd hok ?_
      obtain ⟨a2, s2, b2⟩ := ex
      simp only at ha
      subst ha
      simp [Executor.setup_buffers, Executor.execute_op]
    | some av =>
      rw [ha] at hb
      dsimp only at hb
      rw [lookupAssoc_insertAssoc_self] at hb
      obtain rfl : b = ⟨createBufferInit data.flatten,
          (createBufferInit data.flatten).length,
          createBufferInit (dimsBytes dims)⟩ := by
        injection hb with hb2
        exact hb2.symm
      subst ht
      refine ⟨by simp [createBufferInit_length], ?_⟩
      have h4 : (stagedBytes (createBufferInit data.flatten).length
          (gpu op (createBufferInit data.flatten))).length % 4 = 0 := by
        rw [stagedBytes_length, createBufferInit_length]
        exact padTo4_mod data.flatten.length
      have := bytesToU32_length _ h4
      simp only [stagedBytes_length, createBufferInit_length] at this ⊢
      exact this
  · intro ex gpu mapOk dims data1 data2 id op h
    have hsetup : ex.setup_buffers dims data1 id =
        ex.setup_buffers dims data2 id := by
      unfold Executor.setup_buffers
      rw [h]
    rw [hsetup]

/-- C10 witness: the same 16 bytes allocated as four `u32` elements
(`data4`) and as sixteen `u8` elements (`data16`) both read back as the
`u32` sequence `[1, 2, 3, 4]`. -/
theorem c10_witness :
    ((ex1.execute_op gpuId true "a".data .DOUBLE).1 =
      .ok ⟨(16, 1, 1), [1, 2, 3, 4]⟩ ∧
     ([1, 2, 3, 4] : List Nat) =
       bytesToU32 (stagedBytes (padTo4 data4.flatten.length)
         (gpuId .DOUBLE (createBufferInit data4.flatten))) ∧
     4 * ([1, 2, 3, 4] : List Nat).length =
       padTo4 data4.flatten.length) ∧
    (data16.flatten = data4.flatten ∧
     ((exBase.setup_buffers ⟨4, 1, 1, 1⟩ data16 "a".data).2).execute_op
         gpuId true "a".data .DOUBLE =
       ((exBase.setup_buffers ⟨4, 1, 1, 1⟩ data4 "a".data).2).execute_op
         gpuId true "a".data .DOUBLE) :=
  ⟨⟨by decide,
    (c10_readback_u32_any_element_type.1 exBase gpuId true ⟨4, 1, 1, 1⟩
      data4 "a".data .DOUBLE ⟨(16, 1, 1), [1, 2, 3, 4]⟩ (by decide)).1,
    (c10_readback_u32_any_element_type.1 exBase gpuId true ⟨4, 1, 1, 1⟩
      data4 "a".data .DOUBLE ⟨(16, 1, 1), [1, 2, 3, 4]⟩ (by decide)).2⟩,
   ⟨by decide,
    c10_readback_u32_any_element_type.2 exBase gpuId true ⟨4, 1, 1, 1⟩
      data16 data4 "a".data .DOUBLE (by decide)⟩⟩

end Luma
